import Mathlib

/-!
# Verification of the enclave security module

Shallow embedding of `src/storage/security/mod.rs`: the structured error
taxonomy with causal chaining (`EnclaveErrorKind`, `EnclaveError`), the
sensitive configuration model (`EnclaveConfig`, `OsKeyRingConfig`) and the
key/algorithm catalog (`EnclaveKey` and its parameter enums), together with
the rendering (`Display`/`Debug`) and translation functions the module
defines on them.

Rust strings are Lean `String`s; the generic `A: AsRef<Path>` and
`B: Into<String>` parameters stay type parameters where the claims allow it
and are instantiated at `String` where a rendering needs concrete contents.
Rust `Option` is Lean `Option`; derived `PartialEq`/`Eq` is structural
equality on the embedded types.
-/

/-- `EnclaveErrorKind` (source lines 45-68): the closed error taxonomy.
The source derives `Clone, Debug, Eq, PartialEq, Fail`; the derived
structural equality is modelled by `DecidableEq`. -/
inductive EnclaveErrorKind where
  | ConnectionFailure (msg : String)
  | AccessDenied (msg : String)
  | ItemNotFound
  | GeneralError (msg : String)
  deriving DecidableEq

/-- Display strings of each kind, from the `#[fail(display = ...)]`
attributes on the variants (source lines 48, 54, 60, 63). -/
def EnclaveErrorKind.display : EnclaveErrorKind → String
  | .ConnectionFailure msg => "An error occurred while connecting to the enclave: " ++ msg
  | .AccessDenied msg => "Access was denied to the enclave: " ++ msg
  | .ItemNotFound => "The specified item is not found in the keyring"
  | .GeneralError msg => msg

/-- Shallow model of `failure::Context<EnclaveErrorKind>`, the `inner` field
of `EnclaveError` (source line 74).  We record the observables the module
uses: `context` is the stored kind (returned by `get_context`), and `causes`
is the list of display strings of the cause chain hanging below the context,
outermost cause first — exactly what `Fail::iter_chain` yields after the
context itself.  `failure::Context::new(msg)` carries a backtrace and no
further cause, so when it sits at the bottom of a chain it contributes the
single display string of `msg`. -/
structure ContextKind where
  context : EnclaveErrorKind
  causes : List String
  deriving DecidableEq

/-- `EnclaveError` (source lines 71-75): wrapper holding a
`Context<EnclaveErrorKind>`. -/
structure EnclaveError where
  inner : ContextKind
  deriving DecidableEq

/-- `EnclaveError::from_msg(kind, msg)` (source lines 79-86):
`Context::new(msg).context(kind)` — the kind becomes the outermost context
and the message context is its only cause. -/
def EnclaveError.from_msg (kind : EnclaveErrorKind) (msg : String) : EnclaveError :=
  ⟨⟨kind, [msg]⟩⟩

/-- `EnclaveError::kind` (source lines 89-91): returns a clone of the
outermost context's kind; the error itself is not consumed or mutated
(the embedding is pure, so this is inherent). -/
def EnclaveError.kind (e : EnclaveError) : EnclaveErrorKind :=
  e.inner.context

/-- `impl From<EnclaveErrorKind> for EnclaveError` (source lines 94-100):
`Context::new("").context(e)`. -/
def EnclaveError.fromKind (e : EnclaveErrorKind) : EnclaveError :=
  ⟨⟨e, [""]⟩⟩

/-- The display strings yielded by `Fail::iter_chain(&self.inner)`
(source line 116): the context itself first (its display is the display of
the stored kind), then the causes, outermost first. -/
def EnclaveError.iterChain (e : EnclaveError) : List String :=
  e.inner.context.display :: e.inner.causes

/-- Modelled from the spec: "a backend re-throwing after adding detail"
wraps an existing error with a new kind as additional context.  The
re-throw operation itself lives in the backend modules, which are outside
`src/`; per `failure`'s `Fail::context` semantics (the same call
`from_msg` uses) the new context goes on top and the whole previous chain
remains as the cause. -/
def EnclaveError.wrap (e : EnclaveError) (k : EnclaveErrorKind) : EnclaveError :=
  ⟨⟨k, e.iterChain⟩⟩

/-- The loop body of `impl fmt::Display for EnclaveError`
(source lines 112-126): iterate the chain with a `first` flag, writing
`"Error: {}"` for the first entry and `"Caused by: {}"` for the rest,
each via `writeln!` (so each entry is followed by one newline). -/
def renderChainLoop : Bool → List String → String
  | _, [] => ""
  | true, c :: rest => "Error: " ++ c ++ "\n" ++ renderChainLoop false rest
  | false, c :: rest => "Caused by: " ++ c ++ "\n" ++ renderChainLoop false rest

/-- `impl fmt::Display for EnclaveError` (source lines 112-126). -/
def EnclaveError.display (e : EnclaveError) : String :=
  renderChainLoop true e.iterChain

/-- C10: converting an `EnclaveErrorKind` into an `EnclaveError` via the
`From` conversion and reading it back with `kind()` yields the original
kind. -/
theorem c10_kind_roundtrip :
    ∀ k : EnclaveErrorKind, (EnclaveError.fromKind k).kind = k :=
  fun _ => rfl

/-- C4: an error built by `from_msg(k, m)` has `kind() = k` for every
message, and more generally the kind read back is the outermost stored
kind whatever chain of wrapped causes lies beneath it, so wrapping depth
never affects it; `kind` is a pure projection, so it neither consumes nor
mutates the error. -/
theorem c4_kind_preserved :
    (∀ (k : EnclaveErrorKind) (m : String), (EnclaveError.from_msg k m).kind = k)
    ∧ (∀ (k : EnclaveErrorKind) (causes : List String),
        (EnclaveError.mk ⟨k, causes⟩).kind = k)
    ∧ (∀ (e : EnclaveError) (k : EnclaveErrorKind), (e.wrap k).kind = k) :=
  ⟨fun _ _ => rfl, fun _ _ => rfl, fun _ _ => rfl⟩

/-- `OsKeyRingConfig<A, B>` (source lines 176-186): optional keyring path,
optional username, optional password.  The source derives
`Clone, Debug, PartialEq, Eq, Zeroize`; the derived `PartialEq`/`Eq` is the
field-wise structural equality that Lean's `Eq` gives on this structure
(`Option` equality distinguishes `none` from `some`, as Rust's derived
`Option` equality distinguishes `None` from `Some`). -/
structure OsKeyRingConfig (A B : Type) where
  path : Option A
  username : Option B
  password : Option B
  deriving DecidableEq

/-- Memory observable after the drop glue of `OsKeyRingConfig` runs.
The source (line 178) derives `Zeroize` WITHOUT the `zeroize(drop)`
attribute, and neither this module nor anything else under `src/` provides
an `impl Drop for OsKeyRingConfig`; the derive therefore only generates an
explicit `zeroize(&mut self)` method that is never wired to drop.  The
compiler-generated drop glue recursively drops the fields and performs no
overwrite, so the region that backed the password still holds its previous
contents when the value is deallocated.  We model that residue directly:
the bytes left behind are exactly the password the value held. -/
def OsKeyRingConfig.memoryAfterDrop {A B : Type} (c : OsKeyRingConfig A B) : Option B :=
  c.password

/-- Escaping performed by Rust's `Debug` formatting of a string
(`char::escape_debug`), restricted to the escapes that can arise in the
ASCII inputs considered here: quote, backslash, newline, tab, carriage
return; every other character of our inputs is printable ASCII and passes
through unchanged. -/
def escapeDebugChar (c : Char) : String :=
  if c = '"' then "\\\""
  else if c = '\\' then "\\\\"
  else if c = '\n' then "\\n"
  else if c = '\t' then "\\t"
  else if c = '\r' then "\\r"
  else String.mk [c]

/-- Rust `{:?}` rendering of a string: quoted, characters escaped. -/
def rustStringDebug (s : String) : String :=
  "\"" ++ String.join (s.data.map escapeDebugChar) ++ "\""

/-- Rust `{:?}` rendering of an `Option`, given the rendering of the
content: `None`, or `Some(...)`. -/
def optionDebug {α : Type} (f : α → String) : Option α → String
  | none => "None"
  | some a => "Some(" ++ f a ++ ")"

/-- The derived `Debug` rendering of `OsKeyRingConfig` (`derive(Debug)` at
source line 178), at the `String` instantiation of both type parameters:
the derive prints every field verbatim through the field's own `Debug` —
including the raw username and password contents.  Nothing in the source
overrides or masks this. -/
def OsKeyRingConfig.debugFmt (c : OsKeyRingConfig String String) : String :=
  "OsKeyRingConfig \x7b path: " ++ optionDebug rustStringDebug c.path
    ++ ", username: " ++ optionDebug rustStringDebug c.username
    ++ ", password: " ++ optionDebug rustStringDebug c.password ++ " \x7d"

/-- `impl fmt::Display for OsKeyRingConfig` (source lines 188-202), at the
`String` instantiation: the path is printed through the `Debug` of its
`OsStr` form (for a string path, the quoted string), while username and
password are first mapped to the constant mask `"*********"` and only then
`Debug`-printed as `Option`s. -/
def OsKeyRingConfig.displayFmt (c : OsKeyRingConfig String String) : String :=
  "OsKeyRingConfig (path: " ++ optionDebug rustStringDebug c.path
    ++ ", username: " ++ optionDebug rustStringDebug (c.username.map (fun _ => "*********"))
    ++ ", password: " ++ optionDebug rustStringDebug (c.password.map (fun _ => "*********"))
    ++ ")"

/-- Substring test used to state the redaction claims: `needle` occurs
contiguously somewhere in `hay`. -/
def strContains (hay needle : String) : Bool :=
  (List.range (hay.data.length + 1)).any (fun i => needle.data.isPrefixOf (hay.data.drop i))

/-- C1 (falsified by the code): a config whose password is set still has the
original password bytes in the memory that held them after the value is
dropped — `derive(Zeroize)` without `zeroize(drop)` and without any `Drop`
impl never scrubs on drop — so the claimed zeroization-on-every-exit-path
property fails. -/
theorem c1_password_survives_drop :
    (OsKeyRingConfig.memoryAfterDrop
        (⟨none, none, some "hunter2"⟩ : OsKeyRingConfig String String) = some "hunter2")
    ∧ ¬ (∀ (c : OsKeyRingConfig String String) (p : String),
          c.password = some p → c.memoryAfterDrop ≠ some p) := by
  refine ⟨rfl, fun hall => ?_⟩
  exact hall ⟨none, none, some "hunter2"⟩ "hunter2" rfl rfl

/-- C2 (falsified by the code): with username `"alice"` and password
`"hunter2"`, the derived `Debug` rendering contains both literal secrets,
while the hand-written `Display` rendering contains neither — the claim
that BOTH renderings mask the credentials fails on `Debug`. -/
theorem c2_debug_leaks_secrets :
    (strContains
        (OsKeyRingConfig.debugFmt ⟨some "/tmp/ring", some "alice", some "hunter2"⟩)
        "hunter2" = true)
    ∧ (strContains
        (OsKeyRingConfig.debugFmt ⟨some "/tmp/ring", some "alice", some "hunter2"⟩)
        "alice" = true)
    ∧ (strContains
        (OsKeyRingConfig.displayFmt ⟨some "/tmp/ring", some "alice", some "hunter2"⟩)
        "hunter2" = false)
    ∧ (strContains
        (OsKeyRingConfig.displayFmt ⟨some "/tmp/ring", some "alice", some "hunter2"⟩)
        "alice" = false) := by
  refine ⟨?_, ?_, ?_, ?_⟩ <;> decide

/-- C7: omitted (`none`) username or password is a state distinct from an
empty string — two configs identical except that one has the field unset
and the other has it set to `""` compare unequal under the derived
structural equality. -/
theorem c7_absent_distinct_from_empty :
    ∀ (A : Type) (p : Option A) (pw : Option String),
      ((⟨p, none, pw⟩ : OsKeyRingConfig A String) ≠ ⟨p, some "", pw⟩)
      ∧ ∀ (u : Option String),
          (⟨p, u, none⟩ : OsKeyRingConfig A String) ≠ ⟨p, u, some ""⟩ := by
  intro A p pw
  constructor
  · intro h
    cases h
  · intro u h
    cases h

/-- `EnclaveConfig<A, B>` (source lines 154-164): tagged union over backend
kind — an OS keyring with its config, or a YubiHSM. -/
inductive EnclaveConfig (A B : Type) where
  | OsKeyRing (cfg : OsKeyRingConfig A B)
  | YubiHsm

/-- `impl fmt::Display for EnclaveConfig` (source lines 166-174).  The body
is `write!(f, "EnclaveConfig ({})", self)`: the `{}` placeholder formats
`self` with `Display` — the very impl being defined — so each invocation
recurses into itself with the same value and never reaches a base case (at
runtime: unbounded recursion and a stack overflow).  We embed it as a
fuel-indexed evaluator in which the recursive `Display::fmt` call consumes
one unit of fuel and exhausted fuel yields `none`. -/
def EnclaveConfig.displayFuel {A B : Type} : Nat → EnclaveConfig A B → Option String
  | 0, _ => none
  | n + 1, c => (displayFuel n c).map (fun s => "EnclaveConfig (" ++ s ++ ")")

/-- C9 (falsified by the code): the `Display` impl of `EnclaveConfig`
formats `self` inside itself, so no amount of fuel ever produces a string —
formatting diverges instead of terminating with a finite
`"EnclaveConfig (…)"` — and indeed no string at all can satisfy the
recursive formatting equation, since the output is strictly longer than the
recursive occurrence. -/
theorem c9_display_diverges :
    (∀ (fuel : Nat) (c : EnclaveConfig String String),
        EnclaveConfig.displayFuel fuel c = none)
    ∧ (∀ s : String, "EnclaveConfig (" ++ s ++ ")" ≠ s) := by
  constructor
  · intro fuel
    induction fuel with
    | zero => intro c; rfl
    | succ n ih => intro c; simp [EnclaveConfig.displayFuel, ih c]
  · intro s h
    have hlen : ("EnclaveConfig (" ++ s ++ ")").data.length = s.data.length := by rw [h]
    have e : ∀ a b : String, (a ++ b).data = a.data ++ b.data := fun _ _ => rfl
    rw [e, e, List.length_append, List.length_append] at hlen
    have h15 : "EnclaveConfig (".data.length = 15 := rfl
    have h1 : ")".data.length = 1 := rfl
    omega

/-- `security_framework::base::Error` as the translation at source lines
128-143 observes it: a numeric status code (`e.code()`) and the message
text that `e.to_string()` yields. -/
structure SecFrameworkError where
  code : Int
  message : String

/-- `impl From<security_framework::base::Error> for EnclaveError`
(source lines 128-143): match on the code — `-128` becomes `AccessDenied`
with the `Debug`-formatted message (`format!("{:?}", e.to_string())`),
`-25300` becomes `ItemNotFound`, and every other code falls to the catch-all
arm, `GeneralError` with the fixed text `"Unknown error"`; each kind is then
converted through the `From<EnclaveErrorKind>` impl. -/
def EnclaveError.fromSecError (e : SecFrameworkError) : EnclaveError :=
  if e.code = -128 then EnclaveError.fromKind (.AccessDenied (rustStringDebug e.message))
  else if e.code = -25300 then EnclaveError.fromKind .ItemNotFound
  else EnclaveError.fromKind (.GeneralError "Unknown error")

/-- C5: translating a native platform error is total over all codes — the
code the module treats as access denied (`-128`) yields `AccessDenied`, the
item-not-found code (`-25300`) yields `ItemNotFound`, and every other code
yields `GeneralError` via the catch-all arm; no code is rejected. -/
theorem c5_translation_total (m : String) (c : Int)
    (h1 : c ≠ -128) (h2 : c ≠ -25300) :
    (EnclaveError.fromSecError ⟨-128, m⟩).kind = .AccessDenied (rustStringDebug m)
    ∧ (EnclaveError.fromSecError ⟨-25300, m⟩).kind = .ItemNotFound
    ∧ (EnclaveError.fromSecError ⟨c, m⟩).kind = .GeneralError "Unknown error" := by
  refine ⟨rfl, rfl, ?_⟩
  simp [EnclaveError.fromSecError, EnclaveError.fromKind, EnclaveError.kind, h1, h2]

/-- Witness for C5 at message `"oops"` and unrecognized code `42`. -/
theorem c5_translation_total_witness :
    ((42 : Int) ≠ -128 ∧ (42 : Int) ≠ -25300)
    ∧ ((EnclaveError.fromSecError ⟨-128, "oops"⟩).kind
          = .AccessDenied (rustStringDebug "oops")
        ∧ (EnclaveError.fromSecError ⟨-25300, "oops"⟩).kind = .ItemNotFound
        ∧ (EnclaveError.fromSecError ⟨42, "oops"⟩).kind
          = .GeneralError "Unknown error") :=
  ⟨⟨by decide, by decide⟩, c5_translation_total "oops" 42 (by decide) (by decide)⟩

/-- `EcCurves` (source lines 276-287): the ECC curve catalog.  Variant names
follow the source exactly, including `Secp512r1`. -/
inductive EcCurves where
  | Secp256r1
  | Secp384r1
  | Secp512r1
  | Secp256k1
  deriving DecidableEq

/-- The doc comment attached to each `EcCurves` variant in the source
(lines 279, 281, 283, 285) — the module's own description of which
real-world curve each variant denotes. -/
def EcCurves.docName : EcCurves → String
  | .Secp256r1 => "NIST P-256 curve"
  | .Secp384r1 => "NIST P-384 curve"
  | .Secp512r1 => "NIST P-512 curve"
  | .Secp256k1 => "Koblitz 256 curve"

/-- `EcdsaAlgorithm` (source lines 289-301): hash choices for ECDSA. -/
inductive EcdsaAlgorithm where
  | Sha1
  | Sha256
  | Sha384
  | Sha512
  deriving DecidableEq

/-- `HmacAlgorithm` (source lines 303-315). -/
inductive HmacAlgorithm where
  | Sha1
  | Sha256
  | Sha384
  | Sha512
  deriving DecidableEq

/-- `RsaMgf` (source lines 317-329). -/
inductive RsaMgf where
  | Sha1
  | Sha256
  | Sha384
  | Sha512
  deriving DecidableEq

/-- `AesSizes` (source lines 254-263). -/
inductive AesSizes where
  | Aes128
  | Aes192
  | Aes256
  deriving DecidableEq

/-- `AesModes` (source lines 265-274). -/
inductive AesModes where
  | Ccm
  | Gcm
  | GcmSiv
  deriving DecidableEq

/-- `WrappingKey` (source lines 245-252). -/
inductive WrappingKey where
  | Aes (size : AesSizes) (mode : AesModes)
  | XChachaPoly1305
  deriving DecidableEq

/-- `EnclaveKey` (source lines 217-243): the closed catalog of key
descriptors. -/
inductive EnclaveKey where
  | Ed25519
  | X25519
  | Ecdh (curve : EcCurves)
  | Ecdsa (curve : EcCurves) (alg : EcdsaAlgorithm)
  | RsaOaep (mgf : RsaMgf)
  | RsaPkcs15 (mgf : RsaMgf)
  | RsaPss (mgf : RsaMgf)
  | Hmac (alg : HmacAlgorithm)
  | WrapKey (key : WrappingKey)
  deriving DecidableEq

/-- The derive attribute on `EnclaveKey` in the source (line 222):
`#[derive(Clone, Copy, Debug)]` — and nothing else; in particular the
source file contains no `PartialEq`/`Eq` derive or impl for `EnclaveKey`
(nor for its parameter enums `EcCurves`, `EcdsaAlgorithm`, ...). -/
def EnclaveKey.derivedTraits : List String :=
  ["Clone", "Copy", "Debug"]

/-- C6 counterexample: the claim asserts that equality comparison on
`EnclaveKey` is defined, but the source derives only Clone, Copy and Debug
for it — `PartialEq`/`Eq` is absent, so `==` on two `EnclaveKey` values
does not exist in the code. -/
theorem c6_eq_not_derived :
    "PartialEq" ∉ EnclaveKey.derivedTraits ∧ "Eq" ∉ EnclaveKey.derivedTraits := by
  exact ⟨by decide, by decide⟩

/-- C6 (amended): structural equality on the descriptors — what
`derive(PartialEq)` would generate — behaves as claimed: two descriptors
with identical constructor and parameters are equal, an `Ecdsa` descriptor
equals another exactly when both curve and hash agree, and differing curve
or hash gives distinct descriptors. -/
theorem c6_structural_equality :
    (EnclaveKey.Ecdsa .Secp256r1 .Sha256 = EnclaveKey.Ecdsa .Secp256r1 .Sha256)
    ∧ (∀ (c₁ c₂ : EcCurves) (h₁ h₂ : EcdsaAlgorithm),
        EnclaveKey.Ecdsa c₁ h₁ = EnclaveKey.Ecdsa c₂ h₂ ↔ c₁ = c₂ ∧ h₁ = h₂)
    ∧ EnclaveKey.Ecdsa .Secp256r1 .Sha256 ≠ EnclaveKey.Ecdsa .Secp384r1 .Sha256
    ∧ EnclaveKey.Ecdsa .Secp256r1 .Sha256 ≠ EnclaveKey.Ecdsa .Secp256r1 .Sha384 := by
  refine ⟨rfl, ?_, by decide, by decide⟩
  intro c₁ c₂ h₁ h₂
  constructor
  · intro h
    cases h
    exact ⟨rfl, rfl⟩
  · rintro ⟨rfl, rfl⟩
    rfl

/-- C8: the curve catalog is closed with exactly the four source variants
and the ECDSA hash catalog is exactly SHA-1/256/384/512; but the third
curve is declared `Secp512r1` and documented by the module itself as
"NIST P-512 curve" — no variant of the catalog denotes NIST P-521, the
curve the claim names. -/
theorem c8_catalog_p512_not_p521 :
    (∀ c : EcCurves,
        c = .Secp256r1 ∨ c = .Secp384r1 ∨ c = .Secp512r1 ∨ c = .Secp256k1)
    ∧ (∀ a : EcdsaAlgorithm, a = .Sha1 ∨ a = .Sha256 ∨ a = .Sha384 ∨ a = .Sha512)
    ∧ EcCurves.docName .Secp512r1 = "NIST P-512 curve"
    ∧ (∀ c : EcCurves, EcCurves.docName c ≠ "NIST P-521 curve") := by
  refine ⟨fun c => ?_, fun a => ?_, rfl, fun c => ?_⟩
  · cases c
    · exact Or.inl rfl
    · exact Or.inr (Or.inl rfl)
    · exact Or.inr (Or.inr (Or.inl rfl))
    · exact Or.inr (Or.inr (Or.inr rfl))
  · cases a
    · exact Or.inl rfl
    · exact Or.inr (Or.inl rfl)
    · exact Or.inr (Or.inr (Or.inl rfl))
    · exact Or.inr (Or.inr (Or.inr rfl))
  · cases c <;> decide

/-- Split a character sequence at newline characters: the segments between
newlines, with one (possibly empty) trailing segment after the last
newline.  Used to observe the physical lines of a rendered error. -/
def splitNl : List Char → List (List Char)
  | [] => [[]]
  | c :: rest =>
    if c = '\n' then [] :: splitNl rest
    else (c :: (splitNl rest).headD []) :: (splitNl rest).tail

/-- The complete lines of a rendered string: every segment before a
newline.  For output produced by a sequence of `writeln!` calls this is
exactly the list of written lines. -/
def outputLines (s : String) : List String :=
  ((splitNl s.data).dropLast).map String.mk

theorem splitNl_ne_nil : ∀ cs : List Char, splitNl cs ≠ [] := by
  intro cs
  induction cs with
  | nil => simp [splitNl]
  | cons c rest ih =>
    by_cases h : c = '\n' <;> simp [splitNl, h]

theorem data_append (a b : String) : (a ++ b).data = a.data ++ b.data := rfl

theorem splitNl_newline_append (l rest : List Char) (h : '\n' ∉ l) :
    splitNl (l ++ '\n' :: rest) = l :: splitNl rest := by
  induction l with
  | nil => simp [splitNl]
  | cons c l ih =>
    have hc : c ≠ '\n' := fun e => h (by simp [e])
    have h' : '\n' ∉ l := fun m => h (List.mem_cons_of_mem _ m)
    simp [splitNl, hc, ih h', splitNl_ne_nil]

theorem chain_tail_lines (chain : List String)
    (h : ∀ s ∈ chain, '\n' ∉ s.data) :
    splitNl (renderChainLoop false chain).data
      = chain.map (fun s => ("Caused by: " ++ s).data) ++ [[]] := by
  induction chain with
  | nil => rfl
  | cons s rest ih =>
    have hs : '\n' ∉ ("Caused by: " ++ s).data := by
      rw [data_append]
      intro hm
      rcases List.mem_append.mp hm with h1 | h2
      · revert h1; decide
      · exact h s (List.mem_cons_self s rest) h2
    have hrest : ∀ t ∈ rest, '\n' ∉ t.data := fun t ht => h t (List.mem_cons_of_mem _ ht)
    have hshape : (renderChainLoop false (s :: rest)).data
        = ("Caused by: " ++ s).data ++ '\n' :: (renderChainLoop false rest).data := by
      show ("Caused by: " ++ s ++ "\n" ++ renderChainLoop false rest).data = _
      rw [data_append, data_append, data_append]
      simp
    rw [hshape, splitNl_newline_append _ _ hs, ih hrest]
    simp

theorem map_mk_data (l : List String) (g : String → String) :
    (l.map (fun s => (g s).data)).map String.mk = l.map g := by
  induction l with
  | nil => rfl
  | cons s rest ih => simp_all

/-- C3: displaying an `EnclaveError` whose fail chain has N entries (none
of whose display strings embed a raw newline) renders exactly N lines, in
chain order — the outermost (most recently added) context first, via
`Fail::iter_chain`, down to the oldest cause last — with the first line
prefixed `"Error: "` and every later line prefixed `"Caused by: "`; and
wrapping an error puts the new context at the front of the chain, so the
most recent context is always the first line. -/
theorem c3_display_chain (e : EnclaveError)
    (h : (e.iterChain.all fun s => !s.data.contains '\n') = true) :
    (outputLines e.display
      = ("Error: " ++ e.inner.context.display)
          :: e.inner.causes.map (fun s => "Caused by: " ++ s))
    ∧ (outputLines e.display).length = e.iterChain.length
    ∧ (∀ k : EnclaveErrorKind,
        (e.wrap k).iterChain = k.display :: e.iterChain) := by
  have hmem : ∀ s ∈ e.iterChain, '\n' ∉ s.data := by
    intro s hs
    have := List.all_eq_true.mp h s hs
    simpa using this
  have hhead : '\n' ∉ ("Error: " ++ e.inner.context.display).data := by
    rw [data_append]
    intro hm
    rcases List.mem_append.mp hm with h1 | h2
    · revert h1; decide
    · exact hmem _ (List.mem_cons_self _ _) h2
  have hrestmem : ∀ t ∈ e.inner.causes, '\n' ∉ t.data :=
    fun t ht => hmem t (List.mem_cons_of_mem _ ht)
  have hshape : e.display.data
      = ("Error: " ++ e.inner.context.display).data ++ '\n'
          :: (renderChainLoop false e.inner.causes).data := by
    show ("Error: " ++ e.inner.context.display ++ "\n"
        ++ renderChainLoop false e.inner.causes).data = _
    rw [data_append, data_append, data_append]
    simp
  refine ⟨?_, ?_, fun k => rfl⟩
  · unfold outputLines
    rw [hshape, splitNl_newline_append _ _ hhead, chain_tail_lines _ hrestmem]
    rw [show ∀ (x : List Char) (ys : List (List Char)),
          (x :: (ys ++ [[]])).dropLast = x :: ys from
        fun x ys => by rw [← List.cons_append]; exact List.dropLast_concat]
    simp only [List.map_cons]
    rw [map_mk_data]
  · unfold outputLines
    rw [hshape, splitNl_newline_append _ _ hhead, chain_tail_lines _ hrestmem]
    simp [EnclaveError.iterChain]

/-- Witness for C3 on the concrete error
`from_msg(ItemNotFound, "backend unavailable")`: a 2-entry chain renders
as exactly 2 lines, the kind's display first. -/
theorem c3_display_chain_witness :
    (((EnclaveError.from_msg .ItemNotFound "backend unavailable").iterChain.all
        fun s => !s.data.contains '\n') = true)
    ∧ ((outputLines (EnclaveError.from_msg .ItemNotFound "backend unavailable").display
        = ("Error: "
              ++ (EnclaveError.from_msg .ItemNotFound "backend unavailable").inner.context.display)
            :: (EnclaveError.from_msg .ItemNotFound "backend unavailable").inner.causes.map
                (fun s => "Caused by: " ++ s))
      ∧ (outputLines (EnclaveError.from_msg .ItemNotFound "backend unavailable").display).length
        = (EnclaveError.from_msg .ItemNotFound "backend unavailable").iterChain.length
      ∧ (∀ k : EnclaveErrorKind,
          ((EnclaveError.from_msg .ItemNotFound "backend unavailable").wrap k).iterChain
            = k.display :: (EnclaveError.from_msg .ItemNotFound "backend unavailable").iterChain)) :=
  ⟨by decide, c3_display_chain _ (by decide)⟩
